import Mathlib

/-!
Shallow embedding of the Topicly (English Flashcards) React frontend.

Sources embedded:
* `src/unnamed/part_001` — the API client (`apiGet`, `apiPost`);
* `src/unnamed/part_003` — the `MainFlashcard` page: state, the data-loading
  effects, `addToYourTopics`, `resetYourTopics`, `selectSearchResult`,
  the debounced search effect and the `goPrev`/`goNext` navigation;
* `english-flashcards-frontend/src/App.tsx` — the auth calls.

Modelling conventions: JS numbers that hold ids are `Int`; `number | null`
is `Option Int`; JS truthiness of a number is "not 0 and not null".
Network responses and the outcome of `JSON.parse` on the stored string are
passed to the effect functions as parameters (they are platform-library
outcomes).  React state plus the `localStorage` slot for
`your_topic_ids_v1` and the request-id ref are gathered in `MainState`.
-/

namespace Topicly

/-- `Topic` record (src: TopicModal.tsx). -/
structure Topic where
  id : Int
  name : String
  is_suggested : Bool
deriving DecidableEq, Repr

/-- `EntryOut` record (src/unnamed/part_003 lines 47-52). -/
structure EntryOut where
  id : Int
  headword : String
  meaning_en : String
  meaning_es : String
deriving DecidableEq, Repr

/-- `ExampleOut` record (lines 54-58). -/
structure ExampleOut where
  id : Int
  text_en : String
  rank : Int
deriving DecidableEq, Repr

/-- `EntryDetail = EntryOut & {examples}` (lines 60-62). -/
structure EntryDetail where
  id : Int
  headword : String
  meaning_en : String
  meaning_es : String
  examples : List ExampleOut
deriving DecidableEq, Repr

/-- The `primary_topic` object of a search result (lines 79-82). -/
structure PrimaryTopic where
  id : Int
  name : String
deriving DecidableEq, Repr

/-- `SearchEntry` record (lines 79-82). -/
structure SearchEntry where
  id : Int
  headword : String
  meaning_en : String
  meaning_es : String
  primary_topic : Option PrimaryTopic
  topic_ids : List Int
deriving DecidableEq, Repr

/-- A fetch `Response` as the client observes it: `ok` flag, HTTP status,
and the decoded JSON body (src/unnamed/part_001). -/
structure HttpResponse (T : Type) where
  ok : Bool
  status : Nat
  body : T

/-- `apiGet` (src/unnamed/part_001 lines 3-9): rejects with
`API error {status}` iff the response is not ok, else resolves the body. -/
def apiGet {T : Type} (res : HttpResponse T) : Except String T :=
  if res.ok then Except.ok res.body
  else Except.error ("API error " ++ toString res.status)

/-- `apiPost` (src/unnamed/part_001 lines 11-21): same rejection rule. -/
def apiPost {T : Type} (res : HttpResponse T) : Except String T :=
  if res.ok then Except.ok res.body
  else Except.error ("API error " ++ toString res.status)

/-- JS `String.prototype.trim`: strip leading and trailing whitespace
(structural, over the character list). -/
def trimString (s : String) : String :=
  String.mk (((s.data.dropWhile Char.isWhitespace).reverse.dropWhile
    Char.isWhitespace).reverse)

/-- JS `String.prototype.toLowerCase` (structural, over the character
list). -/
def toLowerString (s : String) : String :=
  String.mk (s.data.map Char.toLower)

/-- Characters `encodeURIComponent` leaves unescaped (ECMA-262):
ASCII alphanumerics and `- _ . ! ~ * ' ( )` (written via codepoints). -/
def isUriUnreserved (c : Char) : Bool :=
  c.isAlphanum || c = Char.ofNat 45 || c = Char.ofNat 95 || c = Char.ofNat 46 ||
  c = Char.ofNat 33 || c = Char.ofNat 126 || c = Char.ofNat 42 ||
  c = Char.ofNat 39 || c = Char.ofNat 40 || c = Char.ofNat 41

/-- UTF-8 bytes of a character, as numbers. -/
def utf8BytesOfChar (c : Char) : List Nat :=
  let n := c.toNat
  if n < 128 then [n]
  else if n < 2048 then [192 + n / 64, 128 + n % 64]
  else if n < 65536 then [224 + n / 4096, 128 + (n / 64) % 64, 128 + n % 64]
  else [240 + n / 262144, 128 + (n / 4096) % 64, 128 + (n / 64) % 64, 128 + n % 64]

/-- Upper-case hex digit of a value below 16. -/
def hexDigitUpper (n : Nat) : Char :=
  if n < 10 then Char.ofNat (48 + n) else Char.ofNat (55 + n)

/-- `%XX` escape of one byte. -/
def percentEncodeByte (b : Nat) : String :=
  String.mk [Char.ofNat 37, hexDigitUpper (b / 16), hexDigitUpper (b % 16)]

/-- JS `encodeURIComponent`: unreserved characters kept, every other
character replaced by the `%XX` escapes of its UTF-8 bytes. -/
def encodeURIComponent (s : String) : String :=
  String.join (s.data.map fun c =>
    if isUriUnreserved c then String.mk [c]
    else String.join ((utf8BytesOfChar c).map percentEncodeByte))

/-- The API requests the frontend can issue — one constructor per
`apiGet`/`apiPost` call site in `MainFlashcard` and `App.tsx`. -/
inductive ApiRequest where
  | getTopics
  | getEntries (topicId : Int)
  | getEntryDetail (entryId : Int)
  | searchEntries (q : String)
  | getAuthMe
  | postAuthGoogle
  | postAuthLogout
deriving DecidableEq, Repr

/-- HTTP method of each call site (`apiGet` vs `apiPost`). -/
def requestMethod : ApiRequest → String
  | ApiRequest.postAuthGoogle => "POST"
  | ApiRequest.postAuthLogout => "POST"
  | _ => "GET"

/-- The path each call site interpolates (template strings in the source). -/
def requestPath : ApiRequest → String
  | ApiRequest.getTopics => "/topics"
  | ApiRequest.getEntries t => "/entries?topic_id=" ++ toString t ++ "&limit=2000"
  | ApiRequest.getEntryDetail i => "/entries/" ++ toString i
  | ApiRequest.searchEntries q => "/entries/search?q=" ++ encodeURIComponent q ++ "&limit=20"
  | ApiRequest.getAuthMe => "/auth/me"
  | ApiRequest.postAuthGoogle => "/auth/google"
  | ApiRequest.postAuthLogout => "/auth/logout"

/-- Written from the SPEC's endpoint list (section 6), for the refinement
claim C6: a method/path pair matches one of the seven documented endpoints
(search query URL-encoded, numeric limits on list/search). -/
def specEndpointShape (method path : String) : Prop :=
  (method = "GET" ∧ path = "/topics") ∨
  (method = "GET" ∧ ∃ t : Int, path = "/entries?topic_id=" ++ toString t ++ "&limit=2000") ∨
  (method = "GET" ∧ ∃ i : Int, path = "/entries/" ++ toString i) ∨
  (method = "GET" ∧ ∃ q : String, path = "/entries/search?q=" ++ encodeURIComponent q ++ "&limit=20") ∨
  (method = "POST" ∧ path = "/auth/google") ∨
  (method = "GET" ∧ path = "/auth/me") ∨
  (method = "POST" ∧ path = "/auth/logout")

/-- All React state of `MainFlashcard` (src/unnamed/part_003 lines 87-118)
plus the `entryDetailReqRef` counter (line 112) and the
`localStorage` slot for key `your_topic_ids_v1` (`yourTopicsStore`). -/
structure MainState where
  isFlipped : Bool
  isTopicModalOpen : Bool
  topics : List Topic
  selectedTopicId : Option Int
  yourTopicIds : List Int
  entries : List EntryOut
  currentIndex : Nat
  entryDetail : Option EntryDetail
  loading : Bool
  errMsg : Option String
  searchQuery : String
  searchResults : List SearchEntry
  searchOpen : Bool
  searchLoading : Bool
  pendingJumpEntryId : Option Int
  entryDetailReq : Nat
  yourTopicsStore : Option String
deriving DecidableEq, Repr

/-- `JSON.stringify` of a JS number array. -/
def stringifyIds (ids : List Int) : String :=
  "[" ++ String.intercalate "," (ids.map toString) ++ "]"

/-- JS truthiness of a `number | null` value: not null and not 0. -/
def truthyNum : Option Int → Bool
  | none => false
  | some n => n != 0

/-- The default topic id: the topic whose name lowercases to `"mixed"` if
any, else the first topic, else null — `(mixed ?? t[0])?.id ?? null`
(lines 176-177 and 138-139). -/
def defaultTopicId (topics : List Topic) : Option Int :=
  (((topics.find? fun x => toLowerString x.name = "mixed").orElse
    fun _ => topics.head?).map Topic.id)

/-- `addToYourTopics` (lines 125-132): if the id is already present the
updater returns `prev` unchanged (no storage write); else it appends the
id and writes `JSON.stringify(next)` to the key. -/
def addToYourTopics (s : MainState) (topicId : Int) : MainState :=
  if topicId ∈ s.yourTopicIds then s
  else
    let next := s.yourTopicIds ++ [topicId]
    { s with yourTopicIds := next, yourTopicsStore := some (stringifyIds next) }

/-- `resetYourTopics` (lines 135-152): removes the key, recomputes the
default id, and — when the default id is truthy — persists and selects it;
else clears selection.  Always closes the modal. -/
def resetYourTopics (s : MainState) : MainState :=
  let s0 := { s with yourTopicsStore := none }
  match defaultTopicId s.topics with
  | some d =>
    if d != 0 then
      { s0 with yourTopicIds := [d], yourTopicsStore := some (stringifyIds [d]),
                selectedTopicId := some d, isTopicModalOpen := false }
    else
      { s0 with yourTopicIds := [], selectedTopicId := none, isTopicModalOpen := false }
  | none => { s0 with yourTopicIds := [], selectedTopicId := none, isTopicModalOpen := false }

/-- The saved ids as read at lines 180-186: `[]` when the key is absent;
else the parse outcome, with `[]` for a parse failure. -/
def parsedOrEmpty (store : Option String) (parsedSaved : Option (List Int)) : List Int :=
  match store with
  | none => []
  | some _ => parsedSaved.getD []

/-- Lines 188-192: when the saved list is empty and the default id is
truthy, initialize to the default and persist it; otherwise keep the saved
list and the stored value. -/
def initSavedIds (defaultId : Option Int) (savedIds0 : List Int)
    (store : Option String) : List Int × Option String :=
  match defaultId with
  | some d =>
      if savedIds0.isEmpty && (d != 0) then ([d], some (stringifyIds [d]))
      else (savedIds0, store)
  | none => (savedIds0, store)

/-- The topics-loading effect (lines 166-208), from the start of the async
body to completion.  `res` is the `apiGet("/topics")` outcome; `parsedSaved`
is the outcome of `JSON.parse` on the stored raw string (`none` when the
parse throws or yields no usable array; irrelevant when the key is absent,
where the code uses `[]`).  On success: save-restore, default-init with
storage write when the saved list is empty and the default id truthy,
filter against live ids (without rewriting storage), select first saved id
with fallback to the default. -/
def loadTopicsEffect (s : MainState) (res : Except String (List Topic))
    (parsedSaved : Option (List Int)) : MainState :=
  match res with
  | Except.error m =>
      { s with loading := false, errMsg := some m }
  | Except.ok t =>
      let defaultId := defaultTopicId t
      let init := initSavedIds defaultId
        (parsedOrEmpty s.yourTopicsStore parsedSaved) s.yourTopicsStore
      let validIds := t.map Topic.id
      let savedIds := init.1.filter fun i => i ∈ validIds
      { s with topics := t,
               yourTopicIds := savedIds,
               selectedTopicId := savedIds.head?.orElse fun _ => defaultId,
               yourTopicsStore := init.2,
               loading := false, errMsg := none }

/-- The request the topics effect issues. -/
def loadTopicsRequest : ApiRequest := ApiRequest.getTopics

/-- The entries-loading effect (lines 211-231): skipped when
`selectedTopicId` is falsy (null or 0); else unflips the card, clears the
error, and on success installs the list and resets `currentIndex` to 0;
on failure records the message. -/
def loadEntriesEffect (s : MainState) (res : Except String (List EntryOut)) : MainState :=
  if truthyNum s.selectedTopicId = false then s
  else
    match res with
    | Except.ok list =>
        { s with isFlipped := false, errMsg := none, entries := list,
                 currentIndex := 0, loading := false }
    | Except.error m =>
        { s with isFlipped := false, errMsg := some m, loading := false }

/-- The request the entries effect issues (`none` when skipped). -/
def loadEntriesRequest (s : MainState) : Option ApiRequest :=
  match s.selectedTopicId with
  | some t => if t != 0 then some (ApiRequest.getEntries t) else none
  | none => none

/-- Synchronous prefix of the entry-detail effect (lines 273-288): clears
the detail when there is no current entry; else bumps the request counter,
sets `loading`, clears the error and issues `GET /entries/{id}` tagged
with the fresh request id. -/
def entryDetailEffectStart (s : MainState) : MainState × Option (Nat × ApiRequest) :=
  match s.entries[s.currentIndex]? with
  | none => ({ s with entryDetail := none }, none)
  | some current =>
      let requestId := s.entryDetailReq + 1
      ({ s with entryDetailReq := requestId, loading := true, errMsg := none },
       some (requestId, ApiRequest.getEntryDetail current.id))

/-- Response handler of the entry-detail effect (lines 288-300): every
branch (success, failure, finally) first checks
`requestId !== entryDetailReqRef.current` and returns untouched when the
response is stale. -/
def entryDetailEffectResponse (s : MainState) (requestId : Nat)
    (res : Except String EntryDetail) : MainState :=
  if requestId ≠ s.entryDetailReq then s
  else
    match res with
    | Except.ok detail => { s with entryDetail := some detail, loading := false }
    | Except.error m => { s with errMsg := some m, loading := false }

/-- Synchronous prefix of the pending-jump effect (lines 234-255): no-op
when the pending id is falsy or the entries list empty; jumps to the index
when the entry is in the list; else starts a guarded detail fetch. -/
def pendingJumpEffect (s : MainState) : MainState × Option (Nat × ApiRequest) :=
  match s.pendingJumpEntryId with
  | none => (s, none)
  | some jumpId =>
    if jumpId == 0 then (s, none)
    else if s.entries.isEmpty then (s, none)
    else
      match s.entries.findIdx? fun e => e.id = jumpId with
      | some idx =>
          ({ s with isFlipped := false, currentIndex := idx,
                    pendingJumpEntryId := none }, none)
      | none =>
          let requestId := s.entryDetailReq + 1
          ({ s with entryDetailReq := requestId, loading := true, errMsg := none },
           some (requestId, ApiRequest.getEntryDetail jumpId))

/-- Response handler of the pending-jump fallback fetch (lines 255-268):
same stale guard in every branch; the finally-branch also clears the
pending id. -/
def pendingJumpFallbackResponse (s : MainState) (requestId : Nat)
    (res : Except String EntryDetail) : MainState :=
  if requestId ≠ s.entryDetailReq then s
  else
    match res with
    | Except.ok detail =>
        { s with entryDetail := some detail, isFlipped := false,
                 loading := false, pendingJumpEntryId := none }
    | Except.error m =>
        { s with errMsg := some m, loading := false, pendingJumpEntryId := none }

/-- Tail of `selectSearchResult` (lines 356-365): jump to the index when
the entry is in the current list, else start a guarded detail fetch. -/
def selectSearchResultContinue (s : MainState) (item : SearchEntry) :
    MainState × Option (Nat × ApiRequest) :=
  match s.entries.findIdx? fun e => e.id = item.id with
  | some idx => ({ s with isFlipped := false, currentIndex := idx }, none)
  | none =>
      let requestId := s.entryDetailReq + 1
      ({ s with entryDetailReq := requestId, loading := true, errMsg := none },
       some (requestId, ApiRequest.getEntryDetail item.id))

/-- Synchronous part of `selectSearchResult` (lines 334-365): closes the
dropdown, clears the query; when the result's primary topic is truthy and
differs from the current topic it records the pending jump, invalidates
in-flight detail fetches, adds the topic to Your Topics and switches to
it; otherwise continues in the current list. -/
def selectSearchResultSync (s0 : MainState) (item : SearchEntry) :
    MainState × Option (Nat × ApiRequest) :=
  let s := { s0 with searchOpen := false, searchQuery := "" }
  match item.primary_topic.map PrimaryTopic.id with
  | some tt =>
    if tt != 0 && !(some tt == s.selectedTopicId) then
      let s1 := { s with pendingJumpEntryId := some item.id, isFlipped := false,
                         entryDetail := none, entryDetailReq := s.entryDetailReq + 1 }
      let s2 := addToYourTopics s1 tt
      ({ s2 with selectedTopicId := some tt }, none)
    else selectSearchResultContinue s item
  | none => selectSearchResultContinue s item

/-- Response handler of the `selectSearchResult` fallback fetch
(lines 365-382): stale guard in every branch; success also unflips. -/
def selectSearchResultFallbackResponse (s : MainState) (requestId : Nat)
    (res : Except String EntryDetail) : MainState :=
  if requestId ≠ s.entryDetailReq then s
  else
    match res with
    | Except.ok detail =>
        { s with entryDetail := some detail, isFlipped := false, loading := false }
    | Except.error m => { s with errMsg := some m, loading := false }

/-- Synchronous part of the search effect (lines 305-311): when the
trimmed query is empty, clear the results and close the dropdown and
schedule no timer; else schedule the 250ms timer (the `Bool`). -/
def searchEffectImmediate (s : MainState) : MainState × Bool :=
  if trimString s.searchQuery = "" then
    ({ s with searchResults := [], searchOpen := false }, false)
  else (s, true)

/-- The request the search timer issues: the trimmed query, URL-encoded,
with `limit=20` (line 318); `none` when the trimmed query is empty. -/
def searchRequest (s : MainState) : Option ApiRequest :=
  if trimString s.searchQuery = "" then none
  else some (ApiRequest.searchEntries (trimString s.searchQuery))

/-- Completion of the search timer callback (lines 313-328): success
installs the results and opens the dropdown; failure is swallowed —
results cleared, dropdown opened, `errMsg` untouched; `searchLoading`
ends false either way. -/
def searchTimerFire (s : MainState) (res : Except String (List SearchEntry)) : MainState :=
  match res with
  | Except.ok l =>
      { s with searchResults := l, searchOpen := true, searchLoading := false }
  | Except.error _ =>
      { s with searchResults := [], searchOpen := true, searchLoading := false }

/-- One edit of the search box: the time it happens and the query value it
leaves in `searchQuery`. -/
structure SearchEdit where
  time : Nat
  query : String
deriving DecidableEq, Repr

/-- Whether the timer armed by this edit fires: the trimmed query is
non-empty (else the effect schedules nothing) and the next edit — whose
effect cleanup would `clearTimeout` the handle — comes only after the
250ms delay has elapsed. -/
def survivesDebounce (e : SearchEdit) (rest : List SearchEdit) : Bool :=
  (trimString e.query != "") &&
    (match rest with
     | [] => true
     | e2 :: _ => decide (e.time + 250 < e2.time))

/-- The edits of a time-ordered edit sequence whose debounce timer fires
(each firing issues exactly one search fetch, 250ms after the edit). -/
def debounceFires : List SearchEdit → List SearchEdit
  | [] => []
  | e :: rest => (if survivesDebounce e rest then [e] else []) ++ debounceFires rest

/-- `canPrev` (line 404). -/
def canPrev (s : MainState) : Bool := decide (0 < s.currentIndex)

/-- `canNext` (line 405): `currentIndex < entries.length - 1` (Nat
subtraction matches the JS comparison for every index ≥ 0). -/
def canNext (s : MainState) : Bool := decide (s.currentIndex < s.entries.length - 1)

/-- `goPrev` (lines 407-411). -/
def goPrev (s : MainState) : MainState :=
  if canPrev s = false then s
  else { s with isFlipped := false, currentIndex := max 0 (s.currentIndex - 1) }

/-- `goNext` (lines 413-417). -/
def goNext (s : MainState) : MainState :=
  if canNext s = false then s
  else { s with isFlipped := false,
                currentIndex := min (s.entries.length - 1) (s.currentIndex + 1) }

/-- `GET /auth/me` call site (App.tsx line 25). -/
def authMeRequest : ApiRequest := ApiRequest.getAuthMe

/-- `POST /auth/google` call site (App.tsx line 39). -/
def authGoogleRequest : ApiRequest := ApiRequest.postAuthGoogle

/-- `POST /auth/logout` call site (App.tsx line 50). -/
def authLogoutRequest : ApiRequest := ApiRequest.postAuthLogout

/-- Every id in Your Topics is the id of a topic in the topics array. -/
def yourTopicsSubset (s : MainState) : Prop :=
  ∀ i ∈ s.yourTopicIds, i ∈ s.topics.map Topic.id

instance (s : MainState) : Decidable (yourTopicsSubset s) :=
  inferInstanceAs (Decidable (∀ i ∈ s.yourTopicIds, i ∈ s.topics.map Topic.id))

/-- The initial `MainFlashcard` state (the `useState` initial values,
lines 87-118; `loading` starts `true`), with an empty storage slot. -/
def baseState : MainState :=
  { isFlipped := false, isTopicModalOpen := false, topics := [],
    selectedTopicId := none, yourTopicIds := [], entries := [],
    currentIndex := 0, entryDetail := none, loading := true, errMsg := none,
    searchQuery := "", searchResults := [], searchOpen := false,
    searchLoading := false, pendingJumpEntryId := none, entryDetailReq := 0,
    yourTopicsStore := none }

/-- A concrete three-entry list for exercising navigation. -/
def navEntries : List EntryOut :=
  [⟨1, "go", "to move", "ir"⟩, ⟨2, "run", "to run fast", "correr"⟩,
   ⟨3, "sit", "to be seated", "sentarse"⟩]

/-- A state sitting on the middle card of `navEntries`. -/
def navState : MainState :=
  { baseState with entries := navEntries, currentIndex := 1 }

/-- A loaded state with a single known topic (id 1) in Your Topics. -/
def loadedMixedState : MainState :=
  { baseState with topics := [⟨1, "Mixed", true⟩], yourTopicIds := [1],
                   selectedTopicId := some 1 }

/-- A search result whose primary topic (id 7) is not among the loaded
topics. -/
def foreignResult : SearchEntry :=
  ⟨99, "word", "meaning", "significado", some ⟨7, "Travel"⟩, []⟩

/- ------------------------------------------------------------------ -/
/- Theorems                                                            -/
/- ------------------------------------------------------------------ -/

/-- If `find?` returns a topic, its id is among the listed topic ids. -/
theorem find_topic_id_mem {t : List Topic} {p : Topic → Bool} {tp : Topic}
    (h : t.find? p = some tp) : tp.id ∈ t.map Topic.id :=
  List.mem_map_of_mem Topic.id (List.mem_of_find?_eq_some h)

/-- The default topic id, when it exists, is the id of a listed topic. -/
theorem defaultTopicId_mem {t : List Topic} {d : Int}
    (h : defaultTopicId t = some d) : d ∈ t.map Topic.id := by
  unfold defaultTopicId at h
  cases hf : t.find? fun x => toLowerString x.name = "mixed" with
  | some tp =>
      rw [hf] at h
      simp only [Option.orElse, Option.map] at h
      cases h
      exact find_topic_id_mem hf
  | none =>
      rw [hf] at h
      cases t with
      | nil => simp [Option.orElse] at h
      | cons a rest =>
          simp only [Option.orElse, List.head?, Option.map] at h
          cases h
          simp

/-- The edits whose debounce timer fires form a subsequence of the edit
sequence: each idle window contributes at most one fetch. -/
theorem debounceFires_sublist (edits : List SearchEdit) :
    List.Sublist (debounceFires edits) edits := by
  induction edits with
  | nil => simp [debounceFires]
  | cons e rest ih =>
      unfold debounceFires
      by_cases h : survivesDebounce e rest
      · simpa [h] using List.Sublist.cons₂ e ih
      · simpa [h] using List.Sublist.cons e ih

/-- A firing edit has a non-empty trimmed query and is followed (if at
all) only after the 250ms window has elapsed. -/
theorem debounceFires_mem {edits : List SearchEdit} {e : SearchEdit}
    (h : e ∈ debounceFires edits) :
    trimString e.query ≠ "" ∧
    ∃ i : Nat, edits[i]? = some e ∧
      ∀ e2, edits[i + 1]? = some e2 → e.time + 250 < e2.time := by
  induction edits with
  | nil => simp [debounceFires] at h
  | cons a rest ih =>
      unfold debounceFires at h
      by_cases hs : survivesDebounce a rest
      · simp only [hs, if_true, List.mem_append, List.mem_singleton] at h
        rcases h with h | h
        · subst h
          unfold survivesDebounce at hs
          rw [Bool.and_eq_true] at hs
          refine ⟨by simpa using hs.1, 0, by simp, ?_⟩
          intro e2 h2
          cases rest with
          | nil => simp at h2
          | cons b rest2 =>
              simp at h2
              subst h2
              simpa using hs.2
        · obtain ⟨hq, i, hi, hnext⟩ := ih h
          exact ⟨hq, i + 1, by simpa using hi,
            fun e2 h2 => hnext e2 (by simpa using h2)⟩
      · simp only [hs, if_false, List.nil_append] at h
        obtain ⟨hq, i, hi, hnext⟩ := ih h
        exact ⟨hq, i + 1, by simpa using hi,
          fun e2 h2 => hnext e2 (by simpa using h2)⟩

/-- C1.  Stale-response suppression: every `/entries/{id}` response
handler (the detail effect, the pending-jump fallback and the
`selectSearchResult` fallback) first compares its captured request id with
the shared counter; when they differ — a newer detail request was issued
meanwhile — the whole state is left unchanged, for successes and failures
alike, so the UI never adopts a stale entry detail. -/
theorem stale_entry_detail_response_discarded (s : MainState) (requestId : Nat)
    (res : Except String EntryDetail) (h : requestId ≠ s.entryDetailReq) :
    entryDetailEffectResponse s requestId res = s ∧
    pendingJumpFallbackResponse s requestId res = s ∧
    selectSearchResultFallbackResponse s requestId res = s := by
  unfold entryDetailEffectResponse pendingJumpFallbackResponse
    selectSearchResultFallbackResponse
  simp [h]

/-- Witness for C1 at a concrete stale response. -/
theorem stale_entry_detail_response_discarded_witness :
    entryDetailEffectResponse baseState 1 (Except.error "API error 500") = baseState ∧
    pendingJumpFallbackResponse baseState 1 (Except.error "API error 500") = baseState ∧
    selectSearchResultFallbackResponse baseState 1 (Except.error "API error 500") = baseState :=
  stale_entry_detail_response_discarded baseState 1 (Except.error "API error 500")
    (by decide)

/-- C8.  `addToYourTopics` is idempotent and preserves duplicate-freedom:
an already-present id returns the state unchanged (hence without a
storage write); a new id is appended exactly once at the end; applying the
operation twice equals applying it once. -/
theorem addToYourTopics_idempotent (s : MainState) (t : Int) :
    (t ∈ s.yourTopicIds → addToYourTopics s t = s) ∧
    (t ∉ s.yourTopicIds →
      (addToYourTopics s t).yourTopicIds = s.yourTopicIds ++ [t] ∧
      (addToYourTopics s t).yourTopicsStore =
        some (stringifyIds (s.yourTopicIds ++ [t]))) ∧
    addToYourTopics (addToYourTopics s t) t = addToYourTopics s t ∧
    (s.yourTopicIds.Nodup → (addToYourTopics s t).yourTopicIds.Nodup) := by
  by_cases h : t ∈ s.yourTopicIds
  · refine ⟨fun _ => by simp [addToYourTopics, h], fun hc => absurd h hc, ?_, ?_⟩
    · simp [addToYourTopics, h]
    · intro hn; simpa [addToYourTopics, h] using hn
  · refine ⟨fun hc => absurd hc h, fun _ => by simp [addToYourTopics, h], ?_, ?_⟩
    · have h2 : t ∈ (addToYourTopics s t).yourTopicIds := by
        simp [addToYourTopics, h]
      simp [addToYourTopics, h, h2]
    · intro hn
      simp [addToYourTopics, h, List.nodup_append, hn]

/-- Witness for C8 at a concrete fresh id. -/
theorem addToYourTopics_idempotent_witness :
    (addToYourTopics baseState 5).yourTopicIds = baseState.yourTopicIds ++ [5] ∧
    addToYourTopics (addToYourTopics baseState 5) 5 = addToYourTopics baseState 5 ∧
    (addToYourTopics baseState 5).yourTopicIds.Nodup :=
  ⟨((addToYourTopics_idempotent baseState 5).2.1 (by decide)).1,
   (addToYourTopics_idempotent baseState 5).2.2.1,
   (addToYourTopics_idempotent baseState 5).2.2.2 (by decide)⟩

/-- C9.  Card navigation keeps the index in bounds: starting from an
in-range index over a non-empty entries list, `goPrev` and `goNext` stay
within `[0, entries.length - 1]`; `goPrev` is a no-op at index 0 and
`goNext` at the last index; otherwise they move by exactly one and unflip
the card. -/
theorem card_navigation_in_bounds (s : MainState) (hne : s.entries ≠ [])
    (hidx : s.currentIndex < s.entries.length) :
    (goPrev s).currentIndex < s.entries.length ∧
    (goNext s).currentIndex < s.entries.length ∧
    (s.currentIndex = 0 → goPrev s = s) ∧
    (s.currentIndex = s.entries.length - 1 → goNext s = s) ∧
    (0 < s.currentIndex →
      (goPrev s).currentIndex = s.currentIndex - 1 ∧ (goPrev s).isFlipped = false) ∧
    (s.currentIndex < s.entries.length - 1 →
      (goNext s).currentIndex = s.currentIndex + 1 ∧ (goNext s).isFlipped = false) := by
  refine ⟨?_, ?_, ?_, ?_, ?_, ?_⟩
  · by_cases h : 0 < s.currentIndex
    · simp [goPrev, canPrev, h]
      omega
    · simp [goPrev, canPrev, h]
      omega
  · by_cases h : s.currentIndex < s.entries.length - 1
    · simp [goNext, canNext, h]
      omega
    · simp [goNext, canNext, h]
      omega
  · intro h0
    have hnp : ¬ 0 < s.currentIndex := by omega
    simp [goPrev, canPrev, hnp]
  · intro hLast
    have hnn : ¬ s.currentIndex < s.entries.length - 1 := by omega
    simp [goNext, canNext, hnn]
  · intro h
    simp [goPrev, canPrev, h]
  · intro h
    simp [goNext, canNext, h]
    omega

/-- Witness for C9 on the middle card of a three-card list. -/
theorem card_navigation_in_bounds_witness :
    (goPrev navState).currentIndex < navState.entries.length ∧
    (goNext navState).currentIndex < navState.entries.length ∧
    ((0 : Nat) < navState.currentIndex →
      (goPrev navState).currentIndex = navState.currentIndex - 1 ∧
      (goPrev navState).isFlipped = false) :=
  ⟨(card_navigation_in_bounds navState (by decide) (by decide)).1,
   (card_navigation_in_bounds navState (by decide) (by decide)).2.1,
   (card_navigation_in_bounds navState (by decide) (by decide)).2.2.2.2.1⟩

/-- C3.  The search debounce fires once per 250ms idle window: a fetch is
issued only for an edit whose trimmed query is non-empty and which no
further edit follows within 250ms (an earlier follow-up edit clears the
pending timer); the firing edits form a subsequence of the edits — at most
one fetch per idle window — and the fetch carries the trimmed query; when
the trimmed query is empty no timer is scheduled, no fetch is issued, the
results are cleared and the dropdown closed. -/
theorem search_debounce_once_per_window (edits : List SearchEdit)
    (e : SearchEdit) (s : MainState) :
    (e ∈ debounceFires edits →
      trimString e.query ≠ "" ∧
      searchRequest { s with searchQuery := e.query } =
        some (ApiRequest.searchEntries (trimString e.query)) ∧
      ∃ i : Nat, edits[i]? = some e ∧
        ∀ e2, edits[i + 1]? = some e2 → e.time + 250 < e2.time) ∧
    List.Sublist (debounceFires edits) edits ∧
    (trimString s.searchQuery = "" →
      (searchEffectImmediate s).1.searchResults = [] ∧
      (searchEffectImmediate s).1.searchOpen = false ∧
      (searchEffectImmediate s).2 = false ∧
      searchRequest s = none) := by
  refine ⟨?_, debounceFires_sublist edits, ?_⟩
  · intro h
    obtain ⟨hq, hi⟩ := debounceFires_mem h
    refine ⟨hq, ?_, hi⟩
    simp [searchRequest, hq]
  · intro hq
    simp [searchEffectImmediate, searchRequest, hq]

/-- Witness for C3: the edit at time 0 fires (the next edit comes 300ms
later); a whitespace-only query schedules nothing and clears the state. -/
theorem search_debounce_once_per_window_witness :
    (trimString (SearchEdit.mk 0 "ca").query ≠ "" ∧
     searchRequest { baseState with searchQuery := (SearchEdit.mk 0 "ca").query } =
       some (ApiRequest.searchEntries (trimString (SearchEdit.mk 0 "ca").query)) ∧
     ∃ i : Nat,
       ([⟨0, "ca"⟩, ⟨300, "cat"⟩] : List SearchEdit)[i]? = some ⟨0, "ca"⟩ ∧
       ∀ e2, ([⟨0, "ca"⟩, ⟨300, "cat"⟩] : List SearchEdit)[i + 1]? = some e2 →
         (SearchEdit.mk 0 "ca").time + 250 < e2.time) ∧
    ((searchEffectImmediate { baseState with searchQuery := "   " }).1.searchResults = [] ∧
     (searchEffectImmediate { baseState with searchQuery := "   " }).1.searchOpen = false ∧
     (searchEffectImmediate { baseState with searchQuery := "   " }).2 = false ∧
     searchRequest { baseState with searchQuery := "   " } = none) :=
  ⟨(search_debounce_once_per_window [⟨0, "ca"⟩, ⟨300, "cat"⟩] ⟨0, "ca"⟩
      baseState).1 (by decide),
   (search_debounce_once_per_window [⟨0, "ca"⟩, ⟨300, "cat"⟩] ⟨0, "ca"⟩
      { baseState with searchQuery := "   " }).2.2 (by decide)⟩

/-- C6.  The REST surface is exactly the seven documented endpoints: every
request constructor the call sites emit has one of the seven method/path
shapes (search query URL-encoded, numeric limits), and each endpoint is
realized — topics load, entries list (for truthy topic ids), entry detail,
search (trimmed query), and the three auth calls. -/
theorem consumed_endpoints_exact :
    (∀ r : ApiRequest, specEndpointShape (requestMethod r) (requestPath r)) ∧
    loadTopicsRequest = ApiRequest.getTopics ∧
    (∀ s : MainState, ∀ t : Int,
      loadEntriesRequest { s with selectedTopicId := some t } =
        if t = 0 then none else some (ApiRequest.getEntries t)) ∧
    (∀ s : MainState, ∀ e : EntryOut,
      (entryDetailEffectStart { s with entries := [e], currentIndex := 0 }).2 =
        some (s.entryDetailReq + 1, ApiRequest.getEntryDetail e.id)) ∧
    (∀ s : MainState,
      searchRequest s = none ∨
      searchRequest s = some (ApiRequest.searchEntries (trimString s.searchQuery))) ∧
    authMeRequest = ApiRequest.getAuthMe ∧
    authGoogleRequest = ApiRequest.postAuthGoogle ∧
    authLogoutRequest = ApiRequest.postAuthLogout ∧
    requestPath (ApiRequest.getEntries 5) = "/entries?topic_id=5&limit=2000" ∧
    requestPath (ApiRequest.getEntryDetail 7) = "/entries/7" ∧
    requestPath (ApiRequest.searchEntries "hello world") =
      "/entries/search?q=hello%20world&limit=20" ∧
    requestMethod ApiRequest.postAuthGoogle = "POST" ∧
    requestMethod ApiRequest.getAuthMe = "GET" ∧
    requestMethod ApiRequest.postAuthLogout = "POST" := by
  refine ⟨?_, rfl, ?_, ?_, ?_, rfl, rfl, rfl, by decide, by decide, by decide,
    rfl, rfl, rfl⟩
  · intro r
    cases r with
    | getTopics => exact Or.inl ⟨rfl, rfl⟩
    | getEntries t => exact Or.inr (Or.inl ⟨rfl, t, rfl⟩)
    | getEntryDetail i => exact Or.inr (Or.inr (Or.inl ⟨rfl, i, rfl⟩))
    | searchEntries q => exact Or.inr (Or.inr (Or.inr (Or.inl ⟨rfl, q, rfl⟩)))
    | getAuthMe =>
        exact Or.inr (Or.inr (Or.inr (Or.inr (Or.inr (Or.inl ⟨rfl, rfl⟩)))))
    | postAuthGoogle =>
        exact Or.inr (Or.inr (Or.inr (Or.inr (Or.inl ⟨rfl, rfl⟩))))
    | postAuthLogout =>
        exact Or.inr (Or.inr (Or.inr (Or.inr (Or.inr (Or.inr ⟨rfl, rfl⟩)))))
  · intro s t
    by_cases ht : t = 0
    · simp [loadEntriesRequest, ht]
    · simp [loadEntriesRequest, ht]
  · intro s e
    rfl
  · intro s
    by_cases hq : trimString s.searchQuery = ""
    · exact Or.inl (by simp [searchRequest, hq])
    · exact Or.inr (by simp [searchRequest, hq])

/-- C2 counterexample: topic id 0 is non-null, yet `!selectedTopicId` is
true for 0, so no entries fetch is issued and the card index is not
reset. -/
theorem select_topic_zero_no_fetch :
    loadEntriesRequest { baseState with selectedTopicId := some 0, currentIndex := 3 } =
      none ∧
    loadEntriesEffect { baseState with selectedTopicId := some 0, currentIndex := 3 }
        (Except.ok [⟨1, "go", "to move", "ir"⟩]) =
      { baseState with selectedTopicId := some 0, currentIndex := 3 } ∧
    ({ baseState with selectedTopicId := some 0, currentIndex := 3 } :
      MainState).currentIndex ≠ 0 := by
  decide

/-- C2 amended: for every non-null, *nonzero* topic id `t`, changing the
selected topic to `t` issues the entries fetch for `t` and, on success,
installs the list, resets `currentIndex` to 0 and unflips the card. -/
theorem select_topic_resets_index (s : MainState) (t : Int) (list : List EntryOut)
    (hsel : s.selectedTopicId = some t) (ht : t ≠ 0) :
    loadEntriesRequest s = some (ApiRequest.getEntries t) ∧
    (loadEntriesEffect s (Except.ok list)).entries = list ∧
    (loadEntriesEffect s (Except.ok list)).currentIndex = 0 ∧
    (loadEntriesEffect s (Except.ok list)).isFlipped = false := by
  have htr : truthyNum s.selectedTopicId = true := by
    rw [hsel]; simp [truthyNum, ht]
  refine ⟨?_, ?_, ?_, ?_⟩ <;>
    simp [loadEntriesRequest, loadEntriesEffect, truthyNum, hsel, ht, htr]

/-- Witness for the amended C2 at topic id 3. -/
theorem select_topic_resets_index_witness :
    loadEntriesRequest { baseState with selectedTopicId := some 3 } =
      some (ApiRequest.getEntries 3) ∧
    (loadEntriesEffect { baseState with selectedTopicId := some 3 }
        (Except.ok navEntries)).entries = navEntries ∧
    (loadEntriesEffect { baseState with selectedTopicId := some 3 }
        (Except.ok navEntries)).currentIndex = 0 ∧
    (loadEntriesEffect { baseState with selectedTopicId := some 3 }
        (Except.ok navEntries)).isFlipped = false :=
  select_topic_resets_index { baseState with selectedTopicId := some 3 } 3
    navEntries rfl (by decide)

/-- C10 counterexample: with a single topic named "Mixed" whose id is 0
and no saved ids, the default exists but is JS-falsy, so Your Topics stays
empty (not the claimed single default) and `resetYourTopics` clears the
selection instead of restoring the default. -/
theorem default_topic_zero_not_initialized :
    (loadTopicsEffect baseState (Except.ok [⟨0, "Mixed", true⟩]) none).yourTopicIds
      = [] ∧
    (loadTopicsEffect baseState (Except.ok [⟨0, "Mixed", true⟩]) none).yourTopicsStore
      = none ∧
    defaultTopicId [⟨0, "Mixed", true⟩] = some 0 ∧
    (resetYourTopics { baseState with topics := [⟨0, "Mixed", true⟩] }).yourTopicIds
      = [] ∧
    (resetYourTopics { baseState with topics := [⟨0, "Mixed", true⟩] }).selectedTopicId
      = none := by
  decide

/-- C10 amended: when no valid saved ids exist (missing key, failed parse
or empty array) and the default topic — "mixed" by lowercased name, else
the first topic — has a *nonzero* id, Your Topics is initialized to that
single default, it is persisted, and it becomes the selection; with no
topics at all, Your Topics stays empty and the selection null.
`resetYourTopics` restores the same states. -/
theorem default_topic_initialization (s : MainState) (t : List Topic) (d : Int)
    (parsed : Option (List Int))
    (hempty : s.yourTopicsStore = none ∨ parsed = none ∨ parsed = some []) :
    (defaultTopicId t = some d → d ≠ 0 →
      (loadTopicsEffect s (Except.ok t) parsed).yourTopicIds = [d] ∧
      (loadTopicsEffect s (Except.ok t) parsed).selectedTopicId = some d ∧
      (loadTopicsEffect s (Except.ok t) parsed).yourTopicsStore =
        some (stringifyIds [d])) ∧
    (t = [] →
      (loadTopicsEffect s (Except.ok t) parsed).yourTopicIds = [] ∧
      (loadTopicsEffect s (Except.ok t) parsed).selectedTopicId = none) ∧
    (defaultTopicId s.topics = some d → d ≠ 0 →
      (resetYourTopics s).yourTopicIds = [d] ∧
      (resetYourTopics s).selectedTopicId = some d ∧
      (resetYourTopics s).yourTopicsStore = some (stringifyIds [d])) ∧
    (s.topics = [] →
      (resetYourTopics s).yourTopicIds = [] ∧
      (resetYourTopics s).selectedTopicId = none ∧
      (resetYourTopics s).yourTopicsStore = none) := by
  have h0 : parsedOrEmpty s.yourTopicsStore parsed = [] := by
    rcases hempty with h | h | h
    · simp [parsedOrEmpty, h]
    · cases s.yourTopicsStore <;> simp [parsedOrEmpty, h]
    · cases s.yourTopicsStore <;> simp [parsedOrEmpty, h]
  refine ⟨?_, ?_, ?_, ?_⟩
  · intro hd hd0
    have hmem2 : ∃ a ∈ t, a.id = d := by
      simpa using defaultTopicId_mem hd
    simp [loadTopicsEffect, h0, hd, initSavedIds, hd0, hmem2, Option.orElse]
  · intro ht
    subst ht
    simp [loadTopicsEffect, h0, defaultTopicId, initSavedIds]
  · intro hd hd0
    simp [resetYourTopics, hd, hd0]
  · intro ht
    simp [resetYourTopics, defaultTopicId, ht]

/-- Witness for the amended C10: default "Mixed" with id 7 is installed,
persisted and selected on first load and after a reset. -/
theorem default_topic_initialization_witness :
    ((loadTopicsEffect baseState
        (Except.ok [⟨3, "Animals", true⟩, ⟨7, "Mixed", false⟩]) none).yourTopicIds
      = [7] ∧
     (loadTopicsEffect baseState
        (Except.ok [⟨3, "Animals", true⟩, ⟨7, "Mixed", false⟩]) none).selectedTopicId
      = some 7 ∧
     (loadTopicsEffect baseState
        (Except.ok [⟨3, "Animals", true⟩, ⟨7, "Mixed", false⟩]) none).yourTopicsStore
      = some (stringifyIds [7])) ∧
    ((resetYourTopics { baseState with
        topics := [⟨3, "Animals", true⟩, ⟨7, "Mixed", false⟩] }).yourTopicIds = [7] ∧
     (resetYourTopics { baseState with
        topics := [⟨3, "Animals", true⟩, ⟨7, "Mixed", false⟩] }).selectedTopicId
      = some 7 ∧
     (resetYourTopics { baseState with
        topics := [⟨3, "Animals", true⟩, ⟨7, "Mixed", false⟩] }).yourTopicsStore
      = some (stringifyIds [7])) :=
  ⟨(default_topic_initialization baseState
      [⟨3, "Animals", true⟩, ⟨7, "Mixed", false⟩] 7 none (Or.inl rfl)).1
      (by decide) (by decide),
   (default_topic_initialization
      { baseState with topics := [⟨3, "Animals", true⟩, ⟨7, "Mixed", false⟩] }
      [] 7 none (Or.inl rfl)).2.2.1 (by decide) (by decide)⟩

/-- C4 counterexample: the initial load changes `yourTopicIds` by
filtering out ids that no longer exist, but does not rewrite the key, so
afterwards the persisted value `"[1,99]"` (itself a value the app writes
for `[1,99]`) is not the serialization of the current array `[1]`. -/
theorem persisted_ids_stale_after_load :
    stringifyIds [1, 99] = "[1,99]" ∧
    (loadTopicsEffect { baseState with yourTopicsStore := some "[1,99]" }
        (Except.ok [⟨1, "Animals", true⟩]) (some [1, 99])).yourTopicIds = [1] ∧
    (loadTopicsEffect { baseState with yourTopicsStore := some "[1,99]" }
        (Except.ok [⟨1, "Animals", true⟩]) (some [1, 99])).yourTopicsStore =
      some "[1,99]" ∧
    (loadTopicsEffect { baseState with yourTopicsStore := some "[1,99]" }
        (Except.ok [⟨1, "Animals", true⟩]) (some [1, 99])).yourTopicsStore ≠
      some (stringifyIds
        (loadTopicsEffect { baseState with yourTopicsStore := some "[1,99]" }
          (Except.ok [⟨1, "Animals", true⟩]) (some [1, 99])).yourTopicIds) := by
  decide

/-- C4 amended: adding a fresh topic and resetting (with a truthy default)
write `JSON.stringify` of the new array to the key, as does initializing
from an empty/absent/unparsable saved value; but the initial load with a
non-empty parsed saved array leaves the key unchanged, so after a load the
key may keep ids that were filtered out of `yourTopicIds`. -/
theorem your_topics_persistence (s : MainState) (t : Int) (tl : List Topic)
    (parsed : Option (List Int)) (l : List Int) (d : Int) :
    (t ∉ s.yourTopicIds →
      (addToYourTopics s t).yourTopicsStore =
        some (stringifyIds (addToYourTopics s t).yourTopicIds)) ∧
    (t ∈ s.yourTopicIds → addToYourTopics s t = s) ∧
    (defaultTopicId s.topics = some d → d ≠ 0 →
      (resetYourTopics s).yourTopicsStore =
        some (stringifyIds (resetYourTopics s).yourTopicIds)) ∧
    ((s.yourTopicsStore = none ∨ parsed = none ∨ parsed = some []) →
      defaultTopicId tl = some d → d ≠ 0 →
      (loadTopicsEffect s (Except.ok tl) parsed).yourTopicsStore =
        some (stringifyIds (loadTopicsEffect s (Except.ok tl) parsed).yourTopicIds)) ∧
    (parsed = some l → l ≠ [] → s.yourTopicsStore ≠ none →
      (loadTopicsEffect s (Except.ok tl) parsed).yourTopicsStore =
        s.yourTopicsStore) := by
  refine ⟨?_, ?_, ?_, ?_, ?_⟩
  · intro h
    simp [addToYourTopics, h]
  · intro h
    simp [addToYourTopics, h]
  · intro hd hd0
    simp [resetYourTopics, hd, hd0]
  · intro hempty hd hd0
    have h0 : parsedOrEmpty s.yourTopicsStore parsed = [] := by
      rcases hempty with h | h | h
      · simp [parsedOrEmpty, h]
      · cases s.yourTopicsStore <;> simp [parsedOrEmpty, h]
      · cases s.yourTopicsStore <;> simp [parsedOrEmpty, h]
    have hmem2 : ∃ a ∈ tl, a.id = d := by
      simpa using defaultTopicId_mem hd
    simp [loadTopicsEffect, h0, hd, initSavedIds, hd0, hmem2]
  · intro hp hl hst
    have h0 : parsedOrEmpty s.yourTopicsStore parsed = l := by
      cases hs : s.yourTopicsStore with
      | none => exact absurd hs hst
      | some raw => simp [parsedOrEmpty, hp]
    cases hd : defaultTopicId tl with
    | none => simp [loadTopicsEffect, h0, hd, initSavedIds]
    | some d2 =>
        have hne : l.isEmpty = false := by
          cases l with
          | nil => exact absurd rfl hl
          | cons a as => rfl
        simp [loadTopicsEffect, h0, hd, initSavedIds, hne]

/-- Witness for the amended C4 across add, reset, default-init and
non-empty load. -/
theorem your_topics_persistence_witness :
    ((addToYourTopics { baseState with yourTopicIds := [1] } 5).yourTopicsStore =
      some (stringifyIds
        (addToYourTopics { baseState with yourTopicIds := [1] } 5).yourTopicIds)) ∧
    ((resetYourTopics { baseState with
        topics := [⟨7, "Mixed", false⟩] }).yourTopicsStore =
      some (stringifyIds (resetYourTopics { baseState with
        topics := [⟨7, "Mixed", false⟩] }).yourTopicIds)) ∧
    ((loadTopicsEffect baseState (Except.ok [⟨7, "Mixed", false⟩]) none).yourTopicsStore =
      some (stringifyIds
        (loadTopicsEffect baseState (Except.ok [⟨7, "Mixed", false⟩]) none).yourTopicIds)) ∧
    ((loadTopicsEffect { baseState with yourTopicsStore := some "[7]" }
        (Except.ok [⟨7, "Mixed", false⟩]) (some [7])).yourTopicsStore =
      ({ baseState with yourTopicsStore := some "[7]" } : MainState).yourTopicsStore) :=
  ⟨(your_topics_persistence { baseState with yourTopicIds := [1] } 5 [] none [] 0).1
      (by decide),
   (your_topics_persistence { baseState with topics := [⟨7, "Mixed", false⟩] }
      0 [] none [] 7).2.2.1 (by decide) (by decide),
   (your_topics_persistence baseState 0 [⟨7, "Mixed", false⟩] none [] 7).2.2.2.1
      (Or.inl rfl) (by decide) (by decide),
   (your_topics_persistence { baseState with yourTopicsStore := some "[7]" }
      0 [⟨7, "Mixed", false⟩] (some [7]) [7] 0).2.2.2.2 rfl (by decide) (by decide)⟩

/-- C5 counterexample: a failed search fetch (here a 500, which `apiGet`
rejects as `API error 500`) does NOT set `errMsg` — the handler swallows
the error, clearing the results and opening the dropdown instead; no error
banner appears for search failures. -/
theorem search_failure_no_error_banner :
    apiGet { ok := false, status := 500, body := ([] : List SearchEntry) } =
      Except.error "API error 500" ∧
    (searchTimerFire baseState (Except.error "API error 500")).errMsg = none ∧
    (searchTimerFire baseState (Except.error "API error 500")).searchResults = [] ∧
    (searchTimerFire baseState (Except.error "API error 500")).searchOpen = true := by
  refine ⟨rfl, rfl, rfl, rfl⟩

/-- C5 amended: `apiGet`/`apiPost` reject exactly on non-ok responses with
message `API error {status}`; the topics, entries and (fresh) entry-detail
loads set `errMsg` to the rejection message; the search fetch is the
exception — its failure leaves `errMsg` untouched, clears the results and
opens the dropdown. -/
theorem fetch_failure_error_surface {T : Type} (res : HttpResponse T)
    (s : MainState) (m : String) (parsed : Option (List Int)) (requestId : Nat) :
    (res.ok = false →
      apiGet res = Except.error ("API error " ++ toString res.status) ∧
      apiPost res = Except.error ("API error " ++ toString res.status)) ∧
    (res.ok = true → apiGet res = Except.ok res.body ∧ apiPost res = Except.ok res.body) ∧
    (loadTopicsEffect s (Except.error m) parsed).errMsg = some m ∧
    (truthyNum s.selectedTopicId = true →
      (loadEntriesEffect s (Except.error m)).errMsg = some m) ∧
    (requestId = s.entryDetailReq →
      (entryDetailEffectResponse s requestId (Except.error m)).errMsg = some m ∧
      (pendingJumpFallbackResponse s requestId (Except.error m)).errMsg = some m ∧
      (selectSearchResultFallbackResponse s requestId (Except.error m)).errMsg = some m) ∧
    ((searchTimerFire s (Except.error m)).errMsg = s.errMsg ∧
     (searchTimerFire s (Except.error m)).searchResults = [] ∧
     (searchTimerFire s (Except.error m)).searchOpen = true) := by
  refine ⟨?_, ?_, rfl, ?_, ?_, rfl, rfl, rfl⟩
  · intro h
    simp [apiGet, apiPost, h]
  · intro h
    simp [apiGet, apiPost, h]
  · intro h
    simp [loadEntriesEffect, h]
  · intro h
    simp [entryDetailEffectResponse, pendingJumpFallbackResponse,
      selectSearchResultFallbackResponse, h]

/-- Witness for the amended C5 on a concrete 404 and a fresh detail
failure. -/
theorem fetch_failure_error_surface_witness :
    (apiGet { ok := false, status := 404, body := ([] : List Topic) } =
      Except.error ("API error " ++ toString
        ({ ok := false, status := 404, body := ([] : List Topic) } :
          HttpResponse (List Topic)).status) ∧
     apiPost { ok := false, status := 404, body := ([] : List Topic) } =
      Except.error ("API error " ++ toString
        ({ ok := false, status := 404, body := ([] : List Topic) } :
          HttpResponse (List Topic)).status)) ∧
    (loadTopicsEffect baseState (Except.error "API error 404") none).errMsg =
      some "API error 404" ∧
    (entryDetailEffectResponse baseState 0 (Except.error "API error 404")).errMsg =
      some "API error 404" ∧
    (searchTimerFire baseState (Except.error "API error 404")).errMsg =
      baseState.errMsg :=
  ⟨(fetch_failure_error_surface
      { ok := false, status := 404, body := ([] : List Topic) }
      baseState "API error 404" none 0).1 rfl,
   (fetch_failure_error_surface
      { ok := false, status := 404, body := ([] : List Topic) }
      baseState "API error 404" none 0).2.2.1,
   ((fetch_failure_error_surface
      { ok := false, status := 404, body := ([] : List Topic) }
      baseState "API error 404" none 0).2.2.2.2.1 rfl).1,
   (fetch_failure_error_surface
      { ok := false, status := 404, body := ([] : List Topic) }
      baseState "API error 404" none 0).2.2.2.2.2.1⟩

/-- C7 counterexample: picking a search result whose `primary_topic`
(id 7) is unknown to the loaded topics list adds 7 to Your Topics, which
then is no longer a subset of the known topic ids. -/
theorem foreign_search_topic_breaks_subset :
    yourTopicsSubset loadedMixedState ∧
    (selectSearchResultSync loadedMixedState foreignResult).1.yourTopicIds = [1, 7] ∧
    ¬ yourTopicsSubset (selectSearchResultSync loadedMixedState foreignResult).1 := by
  refine ⟨by decide, by decide, by decide⟩

/-- C7 amended: the initial load establishes the subset property
(unconditionally — it filters saved ids against the fetched topics), and
resetting and topic selection preserve it; adding preserves it exactly
when the added id is a known topic id — ids taken from search results
(`primary_topic`) are not validated, which is the one way the subset can
break. -/
theorem your_topics_subset_preserved (s : MainState) (t : Int)
    (tl : List Topic) (parsed : Option (List Int))
    (res : Except String (List EntryOut)) :
    yourTopicsSubset (loadTopicsEffect s (Except.ok tl) parsed) ∧
    (yourTopicsSubset s → t ∈ s.topics.map Topic.id →
      yourTopicsSubset (addToYourTopics s t)) ∧
    yourTopicsSubset (resetYourTopics s) ∧
    ((loadEntriesEffect s res).yourTopicIds = s.yourTopicIds ∧
     (loadEntriesEffect s res).topics = s.topics) := by
  refine ⟨?_, ?_, ?_, ?_⟩
  · intro i hi
    simp only [loadTopicsEffect, List.mem_filter] at hi ⊢
    exact of_decide_eq_true hi.2
  · intro hsub hmem i hi
    by_cases h : t ∈ s.yourTopicIds
    · simp only [addToYourTopics, h, if_true] at hi ⊢
      exact hsub i hi
    · simp only [addToYourTopics, h, if_false] at hi ⊢
      simp only [List.mem_append, List.mem_singleton] at hi
      rcases hi with hi | hi
      · exact hsub i hi
      · subst hi; exact hmem
  · intro i hi
    cases hd : defaultTopicId s.topics with
    | none => simp [resetYourTopics, hd] at hi
    | some d =>
        by_cases hd0 : d != 0
        · simp only [resetYourTopics, hd, hd0, if_true, List.mem_singleton] at hi
          subst hi
          simpa [resetYourTopics, hd, hd0] using defaultTopicId_mem hd
        · simp [resetYourTopics, hd, hd0] at hi
  · unfold loadEntriesEffect
    by_cases h : truthyNum s.selectedTopicId = false
    · simp [h]
    · simp only [h, if_false]
      cases res <;> simp

/-- Witness for the amended C7: adding known topic 3 to Your Topics of a
freshly loaded state keeps the subset property. -/
theorem your_topics_subset_preserved_witness :
    yourTopicsSubset (loadTopicsEffect baseState
      (Except.ok [⟨3, "Animals", true⟩, ⟨7, "Mixed", false⟩]) none) ∧
    yourTopicsSubset (addToYourTopics { baseState with
      topics := [⟨3, "Animals", true⟩, ⟨7, "Mixed", false⟩],
      yourTopicIds := [7] } 3) ∧
    yourTopicsSubset (resetYourTopics { baseState with
      topics := [⟨3, "Animals", true⟩, ⟨7, "Mixed", false⟩] }) :=
  ⟨(your_topics_subset_preserved baseState 0
      [⟨3, "Animals", true⟩, ⟨7, "Mixed", false⟩] none (Except.ok [])).1,
   (your_topics_subset_preserved { baseState with
      topics := [⟨3, "Animals", true⟩, ⟨7, "Mixed", false⟩],
      yourTopicIds := [7] } 3 [] none (Except.ok [])).2.1
      (by decide) (by decide),
   (your_topics_subset_preserved { baseState with
      topics := [⟨3, "Animals", true⟩, ⟨7, "Mixed", false⟩] } 0 [] none
      (Except.ok [])).2.2.1⟩

end Topicly
